import Mathlib

/-!
Verification of the adaptive Excel mock-interview controller
(`src/app.py`, `src/utils.py`, `src/questions.py`) against its
natural-language specification.

The Streamlit session state is embedded as an explicit `SessionState`
record; each button handler of `app.py` becomes a pure state-transition
function.  External effects are passed in as parameters:

* the Evaluator result (an `Evaluation` record, per the contract of
  `utils.evaluate_with_llm`),
* the probabilistic gate draw `random.random()` (a rational `draw`,
  compared against the fixed probability 35/100),
* per-question elapsed time (the code reads the wall clock; we pass the
  elapsed seconds for the answered question directly, which matches the
  code whenever `question_start` was set, i.e. whenever a question was
  issued - the UI always issues a question before an answer can be
  submitted).

Python floats are modelled as rationals; all score arithmetic in the
source involves small integers and the thresholds 2.0, 2.5, 3.0, 3.5,
4.0, 4.5, which are exactly representable, so no rounding is lost.
Python integers are modelled as `Int` (scores) or `Nat` (counts).

The field `followups_asked` is a ghost history counter: it is
incremented exactly where `app.py` decrements `followup_limit`
(line 259) and carries no other behaviour; it lets us state how many
follow-ups were actually asked in a session.
-/

/-- Interview phases, exactly the string states of `st.session_state.phase`
in `src/app.py` line 53: idle, basic, intermediate, advanced, done. -/
inductive Phase
  | idle
  | basic
  | intermediate
  | advanced
  | done
deriving DecidableEq

/-- Evaluation record returned by `utils.evaluate_with_llm`: overall score,
the four breakdown sub-scores, feedback, optional follow-up prompt
(empty string when absent, matching the falsiness test in the source),
and the three behavioural ratings. -/
structure Evaluation where
  score : Int
  breakdown_correctness : Int
  breakdown_efficiency : Int
  breakdown_clarity : Int
  breakdown_completeness : Int
  feedback : String
  followup : String
  clarity : Int
  confidence : Int
  problem_solving : Int
deriving DecidableEq

/-- One element of `st.session_state.transcript` as appended in
`src/app.py` lines 243-250. -/
structure TranscriptEntry where
  question : String
  answer : String
  evaluation : Evaluation
  skill_area : String
  qid : Nat
  time_taken : Rat
  followup_answer : Option String
deriving DecidableEq

/-- The mutable Streamlit session state of `src/app.py` (the fields the
controller logic reads or writes; purely presentational fields such as
`intro_played` and `current_question` are omitted - note that
`current_question` is not cleared when a follow-up is issued, so after
the follow-up answer the same main question is presented again and a
further main answer is possible).  `followups_asked` is a ghost counter
(see the file header). -/
structure SessionState where
  phase : Phase
  transcript : List TranscriptEntry
  asked_skills : List String
  followup_pending : Bool
  followup_text : String
  followup_limit : Int
  timings : List Rat
  interview_start : Option Rat
  interview_complete : Bool
  early_end_reason : Option String
  followups_asked : Nat
deriving DecidableEq

/-- Constant from `src/questions.py` line 10. -/
def MIN_QUESTIONS : Nat := 3

/-- Constant from `src/questions.py` line 11. -/
def MAX_QUESTIONS : Nat := 5

/-- Fixed probability of the follow-up gate, `src/app.py` line 256. -/
def FOLLOWUP_PROB : Rat := 35 / 100

/-- Sum of the evaluation scores of a transcript (the numerator of
`get_avg_score` in `src/app.py` lines 7-11). -/
def scoreSum (l : List TranscriptEntry) : Int :=
  (l.map (fun t => t.evaluation.score)).sum

/-- Embedding of `get_avg_score` (`src/app.py` lines 7-11): `None` for an
empty transcript, otherwise the mean score.  Every appended entry
carries an evaluation, so the filtered list equals the whole list. -/
def get_avg_score (l : List TranscriptEntry) : Option Rat :=
  match l with
  | [] => none
  | _ => some (((scoreSum l : Int) : Rat) / (l.length : Rat))

/-- Phase-length plan `{basic, intermediate, advanced}` returned by
`get_dynamic_phase_lengths` in `src/app.py` lines 160-177. -/
structure PhaseLengths where
  basic : Nat
  intermediate : Nat
  advanced : Nat
deriving DecidableEq

/-- Embedding of `get_dynamic_phase_lengths` (`src/app.py` lines 160-177). -/
def get_dynamic_phase_lengths : Option Rat → PhaseLengths
  | none => ⟨2, 2, 0⟩
  | some a =>
      if 4 ≤ a then ⟨1, 2, 1⟩
      else if a ≤ 2 then ⟨4, 0, 0⟩
      else if a ≤ 5 / 2 then ⟨3, 1, 0⟩
      else ⟨2, 2, 0⟩

/-- Python `avg is None or avg >= c`. -/
def avgNoneOrGE (avg : Option Rat) (c : Rat) : Bool :=
  match avg with
  | none => true
  | some a => decide (c ≤ a)

/-- Python `avg is not None and avg < c`. -/
def avgSomeLT (avg : Option Rat) (c : Rat) : Bool :=
  match avg with
  | none => false
  | some a => decide (a < c)

/-- Phase-progression decision of the Submit Answer handler
(`src/app.py` lines 265-322), run on the state in which the new
transcript entry has already been appended and `followup_pending`
cleared.  Mirrors the if/elif chains of the source. -/
def runProgression (s : SessionState) : SessionState :=
  if s.phase = Phase.basic then
    if (get_dynamic_phase_lengths (get_avg_score s.transcript)).basic ≤ s.transcript.length ∧
        avgNoneOrGE (get_avg_score s.transcript) 3 = true then
      { s with phase := Phase.intermediate }
    else if (get_dynamic_phase_lengths (get_avg_score s.transcript)).basic ≤ s.transcript.length ∧
        avgSomeLT (get_avg_score s.transcript) 3 = true then
      { s with phase := Phase.done, interview_complete := true,
               early_end_reason := some "Interview ended after basic phase due to low performance" }
    else s
  else if s.phase = Phase.intermediate then
    if (get_dynamic_phase_lengths (get_avg_score s.transcript)).basic +
        (get_dynamic_phase_lengths (get_avg_score s.transcript)).intermediate ≤
        s.transcript.length then
      if 0 < (get_dynamic_phase_lengths (get_avg_score s.transcript)).advanced ∧
          avgNoneOrGE (get_avg_score s.transcript) (7 / 2) = true then
        { s with phase := Phase.advanced }
      else
        { s with phase := Phase.done, interview_complete := true }
    else s
  else if s.phase = Phase.advanced then
    if (get_dynamic_phase_lengths (get_avg_score s.transcript)).basic +
        (get_dynamic_phase_lengths (get_avg_score s.transcript)).intermediate +
        (get_dynamic_phase_lengths (get_avg_score s.transcript)).advanced ≤
        s.transcript.length ∨
        MAX_QUESTIONS ≤ s.transcript.length then
      { s with phase := Phase.done, interview_complete := true }
    else s
  else s

/-- Python `a or b` on strings (used for the follow-up text default,
`src/app.py` line 258). -/
def pyOr (a b : String) : String :=
  if a = "" then b else a

/-- Transcript entry built by the Submit Answer handler
(`src/app.py` lines 243-250). -/
def mkEntry (question ans skill : String) (qid : Nat) (ev : Evaluation)
    (elapsed : Rat) : TranscriptEntry :=
  { question := question, answer := ans, evaluation := ev,
    skill_area := skill, qid := qid, time_taken := elapsed,
    followup_answer := none }

/-- Recording part of the Submit Answer handler (`src/app.py` lines
232-251): append the timing, the transcript entry and the skill area. -/
def appendAnswer (s : SessionState) (question skill ans : String) (qid : Nat)
    (ev : Evaluation) (elapsed : Rat) : SessionState :=
  { s with
      timings := s.timings ++ [elapsed],
      transcript := s.transcript ++ [mkEntry question ans skill qid ev elapsed],
      asked_skills := s.asked_skills ++ [skill] }

/-- Clearing of the follow-up state before the progression decision
(`src/app.py` lines 262-264). -/
def clearFollowup (s : SessionState) : SessionState :=
  { s with followup_pending := false, followup_text := "" }

/-- State change when the follow-up gate fires (`src/app.py` lines
257-259): set the pending flag and text, decrement the budget.  The
ghost counter `followups_asked` is incremented alongside. -/
def fireFollowup (s : SessionState) (ev : Evaluation) : SessionState :=
  { s with
      followup_pending := true,
      followup_text := pyOr ev.followup "Could you explain your approach in more detail?",
      followup_limit := s.followup_limit - 1,
      followups_asked := s.followups_asked + 1 }

/-- Embedding of the whole Submit Answer handler (`src/app.py` lines
231-323): record the answer, then either fire a follow-up (iff the
score is between 2 and 4, the budget is positive, the random draw is
below 35/100 and the follow-up prompt is non-empty) or clear the
follow-up state and run the phase progression. -/
def submitAnswer (s : SessionState) (question skill ans : String) (qid : Nat)
    (ev : Evaluation) (elapsed : Rat) (draw : Rat) : SessionState :=
  if 2 ≤ ev.score ∧ ev.score ≤ 4 ∧ 0 < s.followup_limit ∧
      draw < FOLLOWUP_PROB ∧ ev.followup ≠ "" then
    fireFollowup (appendAnswer s question skill ans qid ev elapsed) ev
  else
    runProgression (clearFollowup (appendAnswer s question skill ans qid ev elapsed))

/-- Set the `followup_answer` of the last transcript entry
(`st.session_state.transcript[-1]["followup_answer"] = fu_answer`,
`src/app.py` line 335). -/
def setLastFollowupAnswer (l : List TranscriptEntry) (a : String) : List TranscriptEntry :=
  match l with
  | [] => []
  | [x] => [{ x with followup_answer := some a }]
  | x :: y :: xs => x :: setLastFollowupAnswer (y :: xs) a

/-- Embedding of the Submit Follow-up handler (`src/app.py` lines
332-338): attach the answer to the last transcript entry (when the
transcript is non-empty), clear the pending flag and text.  Note the
handler does not evaluate the follow-up answer and does not run the
phase progression. -/
def submitFollowup (s : SessionState) (ans : String) : SessionState :=
  { s with
      transcript := setLastFollowupAnswer s.transcript ans,
      followup_pending := false,
      followup_text := "" }

/-- Embedding of the Start Interview handler (`src/app.py` lines
143-156): reset the session and enter the basic phase. -/
def startInterview (s : SessionState) (now : Rat) : SessionState :=
  { s with
      phase := Phase.basic,
      transcript := [],
      asked_skills := [],
      followup_pending := false,
      followup_text := "",
      followup_limit := 1,
      timings := [],
      interview_start := some now,
      followups_asked := 0 }

/-- Initial session state (`src/app.py` lines 52-79). -/
def initState : SessionState :=
  { phase := Phase.idle, transcript := [], asked_skills := [],
    followup_pending := false, followup_text := "", followup_limit := 1,
    timings := [], interview_start := none, interview_complete := false,
    early_end_reason := none, followups_asked := 0 }

/-- The phases in which the main question/answer form is shown
(`src/app.py` line 199). -/
def mainPhase (p : Phase) : Prop :=
  p = Phase.basic ∨ p = Phase.intermediate ∨ p = Phase.advanced

instance : DecidablePred mainPhase := fun p => by
  unfold mainPhase; infer_instance

/-- Score range of the Evaluation contract (spec section 3: `score: int
1..5`; the prompt in `utils.evaluate_with_llm` requests an integer 1-5
and the failure fallback returns 3). -/
def scoreOK (ev : Evaluation) : Prop :=
  1 ≤ ev.score ∧ ev.score ≤ 5

/-- One UI event processed by the controller.  The guards are exactly the
conditions under which `src/app.py` renders the corresponding button:
Start Interview only in phase idle (line 141), Submit Answer only in a
main phase with no pending follow-up (line 199), Submit Follow-up only
while a follow-up is pending (line 326).  Submitted evaluations respect
the Evaluator score contract. -/
inductive Step : SessionState → SessionState → Prop
  | start (s : SessionState) (now : Rat) (h : s.phase = Phase.idle) :
      Step s (startInterview s now)
  | answer (s : SessionState) (question skill ans : String) (qid : Nat)
      (ev : Evaluation) (elapsed draw : Rat)
      (hp : mainPhase s.phase) (hf : s.followup_pending = false)
      (hev : scoreOK ev) :
      Step s (submitAnswer s question skill ans qid ev elapsed draw)
  | followup (s : SessionState) (ans : String) (hf : s.followup_pending = true) :
      Step s (submitFollowup s ans)

/-- Session states reachable from the initial state by UI events. -/
inductive Reachable : SessionState → Prop
  | init : Reachable initState
  | step {s s' : SessionState} : Reachable s → Step s s' → Reachable s'

/-- Numeric position of a phase in the forward order idle, basic,
intermediate, advanced, done. -/
def phaseIdx : Phase → Nat
  | Phase.idle => 0
  | Phase.basic => 1
  | Phase.intermediate => 2
  | Phase.advanced => 3
  | Phase.done => 4

/-- All evaluation scores of a transcript lie in the contract range 1..5. -/
def scoresInRange (l : List TranscriptEntry) : Prop :=
  ∀ t ∈ l, 1 ≤ t.evaluation.score ∧ t.evaluation.score ≤ 5

/-- Integer version of `get_dynamic_phase_lengths` applied to the average
`S / n`: the threshold comparisons multiplied through by the positive
denominator. -/
def plZ (n : Nat) (S : Int) : PhaseLengths :=
  if 4 * (n : Int) ≤ S then ⟨1, 2, 1⟩
  else if S ≤ 2 * (n : Int) then ⟨4, 0, 0⟩
  else if 2 * S ≤ 5 * (n : Int) then ⟨3, 1, 0⟩
  else ⟨2, 2, 0⟩

/-- Constraint satisfied by a session sitting in the basic phase whose
last progression decision ran on the current transcript: with `n`
questions answered (score sum `S`), staying in basic forces the listed
score-sum bounds. -/
def BasicNorm (n : Nat) (S : Int) : Prop :=
  (n = 0 ∧ S = 0) ∨ (n = 1 ∧ S ≤ 3) ∨ (n = 2 ∧ S ≤ 5) ∨ (n = 3 ∧ S ≤ 6)

/-- Constraint satisfied by a session sitting in the basic phase right
after the follow-up gate fired (so the progression decision was skipped
for the newest answer, whose score was between 2 and 4). -/
def BasicFire (n : Nat) (S : Int) : Prop :=
  (n = 1 ∧ S ≤ 4) ∨ (n = 2 ∧ S ≤ 7) ∨ (n = 3 ∧ S ≤ 9) ∨ (n = 4 ∧ S ≤ 10)

/-- Per-phase inductive invariant relating the phase to the transcript
length `n`, the score sum `S` and the number of follow-ups asked. -/
def phaseInv (p : Phase) (n : Nat) (S : Int) (asked : Nat) : Prop :=
  match p with
  | Phase.idle => True
  | Phase.basic => BasicNorm n S ∨ (asked = 1 ∧ BasicFire n S)
  | Phase.intermediate =>
      (asked = 0 ∧ n ≤ 3) ∨ (asked = 1 ∧ (n ≤ 4 ∨ (n = 5 ∧ S ≤ 15)))
  | Phase.advanced => (asked = 0 ∧ n ≤ 4) ∨ (asked = 1 ∧ n ≤ 5)
  | Phase.done => 3 ≤ n ∧ n ≤ 6

/-- Global inductive invariant of reachable session states. -/
def SessionInv (s : SessionState) : Prop :=
  scoresInRange s.transcript ∧
  0 ≤ s.followup_limit ∧
  s.followup_limit + (s.followups_asked : Int) = 1 ∧
  phaseInv s.phase s.transcript.length (scoreSum s.transcript) s.followups_asked

/-- Embedding of the difficulty selection at the top of
`select_next_question_api` (`src/utils.py` lines 169-177). -/
def select_difficulty (avg_score : Option Rat) : String :=
  match avg_score with
  | none => "basic"
  | some a =>
      if 9 / 2 ≤ a then "advanced"
      else if 3 ≤ a then "intermediate"
      else "basic"

/-- Question record as produced by `select_next_question_api`
(`src/utils.py`) and by the static pools (`src/questions.py`). -/
structure Question where
  id : Nat
  question : String
  level : String
  skill_area : String
  ideal : String
deriving DecidableEq

/-- Registry of skill areas, `src/questions.py` lines 2-8. -/
def SKILL_AREAS : List String :=
  ["Formulas", "Pivot Tables", "Data Cleaning", "Productivity/Protection", "Reporting"]

/-- Static fallback pool of `src/questions.py` lines 14-20. -/
def FALLBACK_QUESTIONS : List Question :=
  [{ id := 1,
     question := "What are absolute and relative cell references in Excel? Give an example.",
     level := "basic", skill_area := "Formulas",
     ideal := "Relative references (A1) change when copied; absolute (dollar-A-dollar-1) stays fixed." },
   { id := 2,
     question := "Write an Excel formula to calculate the average of values in column A, ignoring blanks.",
     level := "basic", skill_area := "Formulas",
     ideal := "Use AVERAGEIF or an array AVERAGE-IF as array." },
   { id := 3,
     question := "How would you clean a dataset in Excel that has duplicate rows and missing values?",
     level := "intermediate", skill_area := "Data Cleaning",
     ideal := "Use Remove Duplicates, Filter blanks, Fill or IFERROR, or Power Query to transform and dedupe." },
   { id := 4,
     question := "How do you create a pivot table to summarize sales data by region?",
     level := "advanced", skill_area := "Pivot Tables",
     ideal := "Insert PivotTable; put Region into Rows and Sales into Values (choose Average if needed)." },
   { id := 5,
     question := "How can you prevent accidental changes to formulas in a worksheet while allowing edits to some cells?",
     level := "basic", skill_area := "Productivity/Protection",
     ideal := "Unlock editable cells, then Protect Sheet to enforce locked cells." }]

/-- The inline fallback pool of `select_next_question_api`
(`src/utils.py` lines 215-221), used on QuestionSource failure. -/
def fallback_pool : List Question :=
  [{ id := 1,
     question := "What are absolute and relative references in Excel? Give an example.",
     level := "basic", skill_area := "Formulas",
     ideal := "A1 changes when copied; dollar-A-dollar-1 fixed." },
   { id := 2,
     question := "Write formula to average column A ignoring blanks.",
     level := "basic", skill_area := "Formulas",
     ideal := "AVERAGEIF over non-blank cells" },
   { id := 3,
     question := "How do you remove duplicate rows and handle blanks in a dataset?",
     level := "intermediate", skill_area := "Data Cleaning",
     ideal := "Use Remove Duplicates, Filter blanks, Power Query" },
   { id := 4,
     question := "How would you build a Pivot Table to show average sales by region?",
     level := "advanced", skill_area := "Pivot Tables",
     ideal := "Insert PivotTable; Region in Rows; Sales in Values, set Average" },
   { id := 5,
     question := "How to protect formulas but allow edits in certain cells?",
     level := "basic", skill_area := "Productivity/Protection",
     ideal := "Unlock editable cells; Protect sheet; lock formula cells." }]

/-- Failure branch of `select_next_question_api` (`src/utils.py` lines
213-226): return the first fallback-pool question whose skill area was
not asked yet; if every pool skill area was asked, `random.choice` picks
an arbitrary pool element, modelled by the index `choice`. -/
def select_fallback_question (avoid : List String) (choice : Fin 5) : Question :=
  match fallback_pool.find? (fun f => ! avoid.contains f.skill_area) with
  | some f => f
  | none => fallback_pool.get ⟨choice.val, choice.isLt⟩

/-- Neutral fallback evaluation built in the `except` branch of
`evaluate_with_llm` (`src/utils.py` lines 149-159). -/
def fallbackEvaluation (errMsg : String) : Evaluation :=
  { score := 3, breakdown_correctness := 3, breakdown_efficiency := 3,
    breakdown_clarity := 3, breakdown_completeness := 3,
    feedback := "Neutral placeholder feedback due to error: " ++ errMsg,
    followup := "", clarity := 3, confidence := 3, problem_solving := 3 }

/-- Embedding of `evaluate_with_llm` (`src/utils.py` lines 72-159) at the
granularity the error-handling claim needs: the entire LLM call,
JSON extraction and default-filling is abstracted as an `Except` value
(`Except.ok` carries the normalized successful Evaluation); any raised
exception lands in the `except` branch, which returns the neutral
fallback instead of propagating. -/
def evaluate_with_llm (callResult : Except String Evaluation) : Evaluation :=
  match callResult with
  | Except.ok out => out
  | Except.error e => fallbackEvaluation e

/-- Mean of a list of integer scores as a rational (`sum(v)/len(v)`). -/
def skillAvg (v : List Int) : Rat :=
  ((v.map fun x => (x : Rat)).sum) / (v.length : Rat)

/-- One `skill_map.setdefault(sa, []).append(score)` step on an
insertion-ordered association list (Python dict preserves insertion
order). -/
def addScore (m : List (String × List Int)) (sa : String) (sc : Int) :
    List (String × List Int) :=
  match m with
  | [] => [(sa, [sc])]
  | (k, v) :: rest =>
      if k = sa then (k, v ++ [sc]) :: rest else (k, v) :: addScore rest sa sc

/-- The skill map built in the interview-complete block
(`src/app.py` lines 352-358). -/
def buildSkillMap (ts : List TranscriptEntry) : List (String × List Int) :=
  ts.foldl (fun m t => addScore m t.skill_area t.evaluation.score) []

/-- Scorecard values computed in the interview-complete block of
`src/app.py` (lines 346-424): overall score, skill map, strengths and
weaknesses, behavioural averages, total duration and average time per
question. -/
structure Scorecard where
  overall : Rat
  skill_map : List (String × List Int)
  strengths : List String
  weaknesses : List String
  avg_clarity : Rat
  avg_confidence : Rat
  avg_problem_solving : Rat
  total_duration : Rat
  avg_time : Rat
deriving DecidableEq

/-- Embedding of the scorecard computation (`src/app.py` lines 346-424).
The code reads the wall clock (`time.time()`) for `total_duration`; that
reading is the parameter `now`.  The behavioural averages divide by the
transcript length, which is positive for every finished session. -/
def aggregate (s : SessionState) (now : Rat) : Scorecard :=
  { overall :=
      if s.transcript = [] then 0
      else ((scoreSum s.transcript : Int) : Rat) / (s.transcript.length : Rat),
    skill_map := buildSkillMap s.transcript,
    strengths :=
      ((buildSkillMap s.transcript).filter fun kv => decide (4 ≤ skillAvg kv.2)).map Prod.fst,
    weaknesses :=
      ((buildSkillMap s.transcript).filter fun kv => decide (skillAvg kv.2 ≤ 5 / 2)).map Prod.fst,
    avg_clarity :=
      ((s.transcript.map fun t => (t.evaluation.clarity : Rat)).sum) / (s.transcript.length : Rat),
    avg_confidence :=
      ((s.transcript.map fun t => (t.evaluation.confidence : Rat)).sum) / (s.transcript.length : Rat),
    avg_problem_solving :=
      ((s.transcript.map fun t => (t.evaluation.problem_solving : Rat)).sum) / (s.transcript.length : Rat),
    total_duration :=
      match s.interview_start with
      | some t0 => now - t0
      | none => 0,
    avg_time :=
      if s.timings = [] then 0 else s.timings.sum / (s.timings.length : Rat) }

/-- Modelled from the spec: token set of one answer for the consistency
metric (spec section 4.2; no `compute_consistency` exists under `src/`) -
the lowercased, punctuation-stripped word set filtered to tokens longer
than 2 characters. -/
def answer_tokens (s : String) : Finset String :=
  (((s.toLower.map fun c => if c.isAlphanum then c else ' ').splitOn " ").filter
      fun w => decide (2 < w.length)).toFinset

/-- Modelled from the spec: set-overlap ratio of two token sets -
intersection size over union size. -/
def pairOverlap (a b : Finset String) : Rat :=
  ((a ∩ b).card : Rat) / ((a ∪ b).card : Rat)

/-- Overlap ratios of consecutive pairs of token sets. -/
def consecutiveOverlaps : List (Finset String) → List Rat
  | a :: b :: rest => pairOverlap a b :: consecutiveOverlaps (b :: rest)
  | _ => []

/-- Modelled from the spec: the consistency metric of the Scorecard
Aggregator (spec section 4.2) - the set-overlap ratios of consecutive
answers averaged over all consecutive pairs, and 1.0 when fewer than two
answers exist. -/
def compute_consistency (answers : List String) : Rat :=
  if answers.length < 2 then 1
  else (consecutiveOverlaps (answers.map answer_tokens)).sum /
    (((answers.length - 1 : Nat)) : Rat)

/-- Evaluation with a given score, no follow-up prompt and neutral
remaining fields (used for concrete traces). -/
def evScore (n : Int) : Evaluation :=
  { score := n, breakdown_correctness := 3, breakdown_efficiency := 3,
    breakdown_clarity := 3, breakdown_completeness := 3, feedback := "",
    followup := "", clarity := 3, confidence := 3, problem_solving := 3 }

/-- Evaluation with a given score and a non-empty follow-up prompt. -/
def evScoreFu (n : Int) : Evaluation :=
  { evScore n with followup := "Can you elaborate?" }

/-- Concrete session trace: three answers scoring 2 (gate draw 1, no
follow-up), then an answer scoring 4 on which the gate fires (draw 0),
the follow-up answer, then two more answers (scores 5 and 1). -/
def c1s1 : SessionState := startInterview initState 0

/-- Second state of the trace: one answer recorded. -/
def c1s2 : SessionState := submitAnswer c1s1 "q1" "Formulas" "a1" 1 (evScore 2) 10 1

/-- Third state of the trace: two answers recorded. -/
def c1s3 : SessionState := submitAnswer c1s2 "q2" "Data Cleaning" "a2" 2 (evScore 2) 10 1

/-- Fourth state of the trace: three answers recorded. -/
def c1s4 : SessionState := submitAnswer c1s3 "q3" "Pivot Tables" "a3" 3 (evScore 2) 10 1

/-- Fifth state of the trace: fourth answer recorded, follow-up fired. -/
def c1s5 : SessionState := submitAnswer c1s4 "q4" "Reporting" "a4" 4 (evScoreFu 4) 10 0

/-- Sixth state of the trace: follow-up answered; the main question is
presented again (the code does not clear `current_question` on a
follow-up). -/
def c1s6 : SessionState := submitFollowup c1s5 "fu-answer"

/-- Seventh state of the trace: fifth answer recorded, phase moves to
intermediate. -/
def c1s7 : SessionState := submitAnswer c1s6 "q4" "Reporting" "a5" 4 (evScore 5) 10 1

/-- Final state of the trace: sixth answer recorded, phase done with six
transcript entries. -/
def c1s8 : SessionState := submitAnswer c1s7 "q5" "Formulas" "a6" 5 (evScore 1) 10 1

/-- Concrete session trace with scores 2, 3, 2: the third progression
decision moves basic directly to done. -/
def c2s1 : SessionState := startInterview initState 0

/-- Second state of the skip trace. -/
def c2s2 : SessionState := submitAnswer c2s1 "q1" "Formulas" "a1" 1 (evScore 2) 10 1

/-- Third state of the skip trace. -/
def c2s3 : SessionState := submitAnswer c2s2 "q2" "Data Cleaning" "a2" 2 (evScore 3) 10 1

/-- Fourth state of the skip trace: phase done directly from basic. -/
def c2s4 : SessionState := submitAnswer c2s3 "q3" "Pivot Tables" "a3" 3 (evScore 2) 10 1

/-- Small finished session used as a concrete input for the aggregator
claims. -/
def finishedSession : SessionState :=
  { phase := Phase.done,
    transcript :=
      [{ question := "q1", answer := "a1", evaluation := evScore 4,
         skill_area := "Formulas", qid := 1, time_taken := 10, followup_answer := none },
       { question := "q2", answer := "a2", evaluation := evScore 3,
         skill_area := "Data Cleaning", qid := 2, time_taken := 20, followup_answer := none },
       { question := "q3", answer := "a3", evaluation := evScore 2,
         skill_area := "Formulas", qid := 3, time_taken := 30, followup_answer := none }],
    asked_skills := ["Formulas", "Data Cleaning", "Formulas"],
    followup_pending := false, followup_text := "", followup_limit := 1,
    timings := [10, 20, 30], interview_start := some 100,
    interview_complete := true, early_end_reason := none, followups_asked := 0 }

/-! ## Helper lemmas about the controller functions -/

theorem scoreSum_append (l : List TranscriptEntry) (e : TranscriptEntry) :
    scoreSum (l ++ [e]) = scoreSum l + e.evaluation.score := by
  simp [scoreSum]

theorem length_setLastFollowupAnswer (l : List TranscriptEntry) (a : String) :
    (setLastFollowupAnswer l a).length = l.length := by
  induction l with
  | nil => rfl
  | cons x xs ih =>
    cases xs with
    | nil => rfl
    | cons y ys =>
      simp only [setLastFollowupAnswer, List.length_cons] at ih ⊢
      omega

theorem scoreSum_setLastFollowupAnswer (l : List TranscriptEntry) (a : String) :
    scoreSum (setLastFollowupAnswer l a) = scoreSum l := by
  induction l with
  | nil => rfl
  | cons x xs ih =>
    cases xs with
    | nil => rfl
    | cons y ys =>
      simp only [setLastFollowupAnswer, scoreSum, List.map_cons, List.sum_cons] at ih ⊢
      omega

theorem mem_setLastFollowupAnswer (l : List TranscriptEntry) (a : String)
    (t : TranscriptEntry) (ht : t ∈ setLastFollowupAnswer l a) :
    ∃ u ∈ l, u.evaluation = t.evaluation := by
  induction l generalizing t with
  | nil => simp [setLastFollowupAnswer] at ht
  | cons x xs ih =>
    cases xs with
    | nil =>
      simp only [setLastFollowupAnswer, List.mem_singleton] at ht
      exact ⟨x, List.mem_cons_self x [], by rw [ht]⟩
    | cons y ys =>
      simp only [setLastFollowupAnswer, List.mem_cons] at ht
      rcases ht with rfl | ht
      · exact ⟨t, List.mem_cons_self t (y :: ys), rfl⟩
      · rcases ih t ht with ⟨u, hu, he⟩
        exact ⟨u, List.mem_cons_of_mem x hu, he⟩

theorem scoresInRange_setLastFollowupAnswer (l : List TranscriptEntry) (a : String)
    (hl : scoresInRange l) : scoresInRange (setLastFollowupAnswer l a) := by
  intro t ht
  rcases mem_setLastFollowupAnswer l a t ht with ⟨u, hu, he⟩
  rw [← he]
  exact hl u hu

theorem scoresInRange_append (l : List TranscriptEntry) (e : TranscriptEntry)
    (hl : scoresInRange l) (he : 1 ≤ e.evaluation.score ∧ e.evaluation.score ≤ 5) :
    scoresInRange (l ++ [e]) := by
  intro t ht
  rcases List.mem_append.mp ht with h | h
  · exact hl t h
  · rw [List.mem_singleton.mp h]
    exact he

theorem get_avg_score_of_ne_nil (l : List TranscriptEntry) (h : l ≠ []) :
    get_avg_score l = some (((scoreSum l : Int) : Rat) / (l.length : Rat)) := by
  cases l with
  | nil => exact absurd rfl h
  | cons x xs => rfl

theorem avgNoneOrGE_three (n : Nat) (hn : 0 < n) (S : Int) :
    (avgNoneOrGE (some ((S : Rat) / (n : Rat))) 3 = true) ↔ 3 * (n : Int) ≤ S := by
  have hn' : (0 : Rat) < (n : Rat) := by exact_mod_cast hn
  simp only [avgNoneOrGE, decide_eq_true_eq]
  rw [le_div_iff hn',
    show (3 : Rat) * (n : Rat) = (((3 * (n : Int) : Int)) : Rat) by push_cast; ring]
  exact Int.cast_le

theorem avgSomeLT_three (n : Nat) (hn : 0 < n) (S : Int) :
    (avgSomeLT (some ((S : Rat) / (n : Rat))) 3 = true) ↔ S < 3 * (n : Int) := by
  have hn' : (0 : Rat) < (n : Rat) := by exact_mod_cast hn
  simp only [avgSomeLT, decide_eq_true_eq]
  rw [div_lt_iff hn',
    show (3 : Rat) * (n : Rat) = (((3 * (n : Int) : Int)) : Rat) by push_cast; ring]
  exact Int.cast_lt

theorem avgNoneOrGE_seven_halves (n : Nat) (hn : 0 < n) (S : Int) :
    (avgNoneOrGE (some ((S : Rat) / (n : Rat))) (7 / 2) = true) ↔
      7 * (n : Int) ≤ 2 * S := by
  have hn' : (0 : Rat) < (n : Rat) := by exact_mod_cast hn
  simp only [avgNoneOrGE, decide_eq_true_eq]
  rw [div_le_div_iff (by norm_num : (0 : Rat) < 2) hn',
    show (7 : Rat) * (n : Rat) = (((7 * (n : Int) : Int)) : Rat) by push_cast; ring,
    show ((S : Rat)) * 2 = (((2 * S : Int)) : Rat) by push_cast; ring]
  exact Int.cast_le

theorem get_dynamic_phase_lengths_plZ (n : Nat) (hn : 0 < n) (S : Int) :
    get_dynamic_phase_lengths (some ((S : Rat) / (n : Rat))) = plZ n S := by
  have hn' : (0 : Rat) < (n : Rat) := by exact_mod_cast hn
  have h4 : ((4 : Rat) ≤ (S : Rat) / (n : Rat)) ↔ 4 * (n : Int) ≤ S := by
    rw [le_div_iff hn',
      show (4 : Rat) * (n : Rat) = (((4 * (n : Int) : Int)) : Rat) by push_cast; ring]
    exact Int.cast_le
  have h2 : ((S : Rat) / (n : Rat) ≤ 2) ↔ S ≤ 2 * (n : Int) := by
    rw [div_le_iff hn',
      show (2 : Rat) * (n : Rat) = (((2 * (n : Int) : Int)) : Rat) by push_cast; ring]
    exact Int.cast_le
  have h52 : ((S : Rat) / (n : Rat) ≤ 5 / 2) ↔ 2 * S ≤ 5 * (n : Int) := by
    rw [div_le_div_iff hn' (by norm_num : (0 : Rat) < 2),
      show ((S : Rat)) * 2 = (((2 * S : Int)) : Rat) by push_cast; ring,
      show (5 : Rat) * (n : Rat) = (((5 * (n : Int) : Int)) : Rat) by push_cast; ring]
    exact Int.cast_le
  simp only [get_dynamic_phase_lengths, plZ, h4, h2, h52]

theorem plZ_fields (n : Nat) (S : Int) :
    ((plZ n S).basic = 1 ∧ (plZ n S).intermediate = 2 ∧ (plZ n S).advanced = 1 ∧
      4 * (n : Int) ≤ S) ∨
    ((plZ n S).basic = 4 ∧ (plZ n S).intermediate = 0 ∧ (plZ n S).advanced = 0 ∧
      S ≤ 2 * (n : Int) ∧ S < 4 * (n : Int)) ∨
    ((plZ n S).basic = 3 ∧ (plZ n S).intermediate = 1 ∧ (plZ n S).advanced = 0 ∧
      2 * (n : Int) < S ∧ 2 * S ≤ 5 * (n : Int) ∧ S < 4 * (n : Int)) ∨
    ((plZ n S).basic = 2 ∧ (plZ n S).intermediate = 2 ∧ (plZ n S).advanced = 0 ∧
      5 * (n : Int) < 2 * S ∧ S < 4 * (n : Int)) := by
  unfold plZ
  split_ifs with h1 h2 h3 <;> simp <;> omega

theorem runProgression_transcript (s : SessionState) :
    (runProgression s).transcript = s.transcript := by
  unfold runProgression
  split_ifs <;> rfl

theorem runProgression_followup_limit (s : SessionState) :
    (runProgression s).followup_limit = s.followup_limit := by
  unfold runProgression
  split_ifs <;> rfl

theorem runProgression_followups_asked (s : SessionState) :
    (runProgression s).followups_asked = s.followups_asked := by
  unfold runProgression
  split_ifs <;> rfl

theorem runProgression_followup_pending (s : SessionState) :
    (runProgression s).followup_pending = s.followup_pending := by
  unfold runProgression
  split_ifs <;> rfl

theorem mkEntry_evaluation (question ans skill : String) (qid : Nat)
    (ev : Evaluation) (elapsed : Rat) :
    (mkEntry question ans skill qid ev elapsed).evaluation = ev := rfl

theorem length_append_singleton (l : List TranscriptEntry) (e : TranscriptEntry) :
    (l ++ [e]).length = l.length + 1 := by
  simp

theorem appendAnswer_transcript (s : SessionState) (question skill ans : String)
    (qid : Nat) (ev : Evaluation) (elapsed : Rat) :
    (appendAnswer s question skill ans qid ev elapsed).transcript =
      s.transcript ++ [mkEntry question ans skill qid ev elapsed] := rfl

theorem appendAnswer_phase (s : SessionState) (question skill ans : String)
    (qid : Nat) (ev : Evaluation) (elapsed : Rat) :
    (appendAnswer s question skill ans qid ev elapsed).phase = s.phase := rfl

theorem appendAnswer_followup_limit (s : SessionState) (question skill ans : String)
    (qid : Nat) (ev : Evaluation) (elapsed : Rat) :
    (appendAnswer s question skill ans qid ev elapsed).followup_limit =
      s.followup_limit := rfl

theorem appendAnswer_followups_asked (s : SessionState) (question skill ans : String)
    (qid : Nat) (ev : Evaluation) (elapsed : Rat) :
    (appendAnswer s question skill ans qid ev elapsed).followups_asked =
      s.followups_asked := rfl

theorem clearFollowup_transcript (s : SessionState) :
    (clearFollowup s).transcript = s.transcript := rfl

theorem clearFollowup_phase (s : SessionState) :
    (clearFollowup s).phase = s.phase := rfl

theorem clearFollowup_followup_limit (s : SessionState) :
    (clearFollowup s).followup_limit = s.followup_limit := rfl

theorem clearFollowup_followups_asked (s : SessionState) :
    (clearFollowup s).followups_asked = s.followups_asked := rfl

theorem fireFollowup_transcript (s : SessionState) (ev : Evaluation) :
    (fireFollowup s ev).transcript = s.transcript := rfl

theorem fireFollowup_phase (s : SessionState) (ev : Evaluation) :
    (fireFollowup s ev).phase = s.phase := rfl

theorem fireFollowup_followup_limit (s : SessionState) (ev : Evaluation) :
    (fireFollowup s ev).followup_limit = s.followup_limit - 1 := rfl

theorem fireFollowup_followups_asked (s : SessionState) (ev : Evaluation) :
    (fireFollowup s ev).followups_asked = s.followups_asked + 1 := rfl

theorem fireFollowup_followup_pending (s : SessionState) (ev : Evaluation) :
    (fireFollowup s ev).followup_pending = true := rfl

theorem fireFollowup_followup_text (s : SessionState) (ev : Evaluation) :
    (fireFollowup s ev).followup_text =
      pyOr ev.followup "Could you explain your approach in more detail?" := rfl

theorem clearFollowup_followup_pending (s : SessionState) :
    (clearFollowup s).followup_pending = false := rfl

theorem phaseInv_runProgression (t : SessionState) (sc : Int)
    (hmain : mainPhase t.phase)
    (hn : 1 ≤ t.transcript.length)
    (hsc1 : 1 ≤ sc) (hsc5 : sc ≤ 5)
    (hask : t.followups_asked ≤ 1)
    (hpre : phaseInv t.phase (t.transcript.length - 1)
      (scoreSum t.transcript - sc) t.followups_asked) :
    phaseInv (runProgression t).phase t.transcript.length
      (scoreSum t.transcript) t.followups_asked := by
  have hne : t.transcript ≠ [] := by
    intro h
    rw [h] at hn
    simp at hn
  have havg := get_avg_score_of_ne_nil t.transcript hne
  have hpl := get_dynamic_phase_lengths_plZ t.transcript.length hn (scoreSum t.transcript)
  have hge3 := avgNoneOrGE_three t.transcript.length hn (scoreSum t.transcript)
  have hlt3 := avgSomeLT_three t.transcript.length hn (scoreSum t.transcript)
  have hge72 := avgNoneOrGE_seven_halves t.transcript.length hn (scoreSum t.transcript)
  rcases hmain with hph | hph | hph
  · -- basic phase
    rw [hph] at hpre
    unfold runProgression
    rw [hph, if_pos rfl, havg, hpl]
    rcases plZ_fields t.transcript.length (scoreSum t.transcript) with
      ⟨hb, hi, ha, hA⟩ | ⟨hb, hi, ha, hA, hA'⟩ | ⟨hb, hi, ha, hA, hA', hA''⟩ |
      ⟨hb, hi, ha, hA, hA'⟩ <;>
      simp only [hb, hge3, hlt3] <;>
      split_ifs with h1 h2 <;>
      simp only [hph, phaseInv, BasicNorm, BasicFire] at hpre ⊢ <;>
      omega
  · -- intermediate phase
    rw [hph] at hpre
    unfold runProgression
    rw [hph, if_neg (by decide : ¬ (Phase.intermediate = Phase.basic)), if_pos rfl,
      havg, hpl]
    rcases plZ_fields t.transcript.length (scoreSum t.transcript) with
      ⟨hb, hi, ha, hA⟩ | ⟨hb, hi, ha, hA, hA'⟩ | ⟨hb, hi, ha, hA, hA', hA''⟩ |
      ⟨hb, hi, ha, hA, hA'⟩ <;>
      simp only [hb, hi, ha, hge72] <;>
      split_ifs with h1 h2 <;>
      simp only [hph, phaseInv, BasicNorm, BasicFire] at hpre ⊢ <;>
      omega
  · -- advanced phase
    rw [hph] at hpre
    unfold runProgression
    rw [hph, if_neg (by decide : ¬ (Phase.advanced = Phase.basic)),
      if_neg (by decide : ¬ (Phase.advanced = Phase.intermediate)), if_pos rfl,
      havg, hpl]
    rcases plZ_fields t.transcript.length (scoreSum t.transcript) with
      ⟨hb, hi, ha, hA⟩ | ⟨hb, hi, ha, hA, hA'⟩ | ⟨hb, hi, ha, hA, hA', hA''⟩ |
      ⟨hb, hi, ha, hA, hA'⟩ <;>
      simp only [hb, hi, ha, MAX_QUESTIONS] <;>
      split_ifs with h1 <;>
      simp only [hph, phaseInv, BasicNorm, BasicFire] at hpre ⊢ <;>
      omega

theorem sessionInv_init : SessionInv initState := by
  refine ⟨?_, ?_, ?_, ?_⟩ <;>
    norm_num [initState, scoresInRange, phaseInv, scoreSum]

theorem sessionInv_step {s s' : SessionState} (hs : SessionInv s) (hstep : Step s s') :
    SessionInv s' := by
  obtain ⟨hrange, hlim, hsum, hphase⟩ := hs
  cases hstep with
  | start now hidle =>
      refine ⟨?_, ?_, ?_, ?_⟩ <;>
        norm_num [startInterview, scoresInRange, phaseInv, BasicNorm, scoreSum]
  | followup ans hf =>
      refine ⟨?_, ?_, ?_, ?_⟩
      · exact scoresInRange_setLastFollowupAnswer s.transcript ans hrange
      · exact hlim
      · exact hsum
      · show phaseInv s.phase (setLastFollowupAnswer s.transcript ans).length
          (scoreSum (setLastFollowupAnswer s.transcript ans)) s.followups_asked
        rw [length_setLastFollowupAnswer, scoreSum_setLastFollowupAnswer]
        exact hphase
  | answer question skill ans qid ev elapsed draw hp hf hev =>
      unfold submitAnswer
      split_ifs with hfire
      · -- the follow-up gate fires: progression is skipped
        obtain ⟨hs2, hs4, hlimpos, hdr, hfu⟩ := hfire
        have hask0 : s.followups_asked = 0 := by omega
        refine ⟨?_, ?_, ?_, ?_⟩
        · rw [fireFollowup_transcript, appendAnswer_transcript]
          refine scoresInRange_append s.transcript _ hrange ?_
          rw [mkEntry_evaluation]
          exact hev
        · rw [fireFollowup_followup_limit, appendAnswer_followup_limit]
          omega
        · rw [fireFollowup_followup_limit, appendAnswer_followup_limit,
            fireFollowup_followups_asked, appendAnswer_followups_asked]
          push_cast
          omega
        · rw [fireFollowup_phase, appendAnswer_phase, fireFollowup_transcript,
            appendAnswer_transcript, fireFollowup_followups_asked,
            appendAnswer_followups_asked, scoreSum_append, length_append_singleton,
            mkEntry_evaluation]
          rcases hp with hph | hph | hph <;> rw [hph] at hphase ⊢ <;>
            simp only [phaseInv, BasicNorm, BasicFire] at hphase ⊢ <;>
            omega
      · -- no follow-up: the progression decision runs
        have hask1 : s.followups_asked ≤ 1 := by omega
        have htr : (clearFollowup (appendAnswer s question skill ans qid ev elapsed)).transcript =
            s.transcript ++ [mkEntry question ans skill qid ev elapsed] := by
          rw [clearFollowup_transcript, appendAnswer_transcript]
        refine ⟨?_, ?_, ?_, ?_⟩
        · rw [runProgression_transcript, htr]
          refine scoresInRange_append s.transcript _ hrange ?_
          rw [mkEntry_evaluation]
          exact hev
        · rw [runProgression_followup_limit, clearFollowup_followup_limit,
            appendAnswer_followup_limit]
          exact hlim
        · rw [runProgression_followup_limit, clearFollowup_followup_limit,
            appendAnswer_followup_limit, runProgression_followups_asked,
            clearFollowup_followups_asked, appendAnswer_followups_asked]
          exact hsum
        · have hmain : mainPhase (clearFollowup
              (appendAnswer s question skill ans qid ev elapsed)).phase := by
            rw [clearFollowup_phase, appendAnswer_phase]
            exact hp
          have hn : 1 ≤ (clearFollowup
              (appendAnswer s question skill ans qid ev elapsed)).transcript.length := by
            rw [htr, length_append_singleton]
            omega
          have hask : (clearFollowup
              (appendAnswer s question skill ans qid ev elapsed)).followups_asked ≤ 1 := by
            rw [clearFollowup_followups_asked, appendAnswer_followups_asked]
            exact hask1
          have hpre : phaseInv (clearFollowup
              (appendAnswer s question skill ans qid ev elapsed)).phase
              ((clearFollowup
                (appendAnswer s question skill ans qid ev elapsed)).transcript.length - 1)
              (scoreSum (clearFollowup
                (appendAnswer s question skill ans qid ev elapsed)).transcript - ev.score)
              (clearFollowup
                (appendAnswer s question skill ans qid ev elapsed)).followups_asked := by
            rw [clearFollowup_phase, appendAnswer_phase, clearFollowup_followups_asked,
              appendAnswer_followups_asked, htr, length_append_singleton,
              scoreSum_append, mkEntry_evaluation, Nat.add_sub_cancel,
              add_sub_cancel_right]
            exact hphase
          have hfin := phaseInv_runProgression
            (clearFollowup (appendAnswer s question skill ans qid ev elapsed)) ev.score
            hmain hn hev.1 hev.2 hask hpre
          rw [runProgression_transcript, runProgression_followups_asked,
            clearFollowup_followups_asked, appendAnswer_followups_asked]
          rw [htr] at hfin
          rw [clearFollowup_followups_asked, appendAnswer_followups_asked] at hfin
          rw [htr]
          exact hfin

theorem reachable_sessionInv {s : SessionState} (h : Reachable s) : SessionInv s := by
  induction h with
  | init => exact sessionInv_init
  | step _ hstep ih => exact sessionInv_step ih hstep

theorem runProgression_phase_mono (s : SessionState) :
    phaseIdx s.phase ≤ phaseIdx (runProgression s).phase := by
  unfold runProgression
  split_ifs <;> simp_all [phaseIdx]

theorem setLast_spec (l : List TranscriptEntry) (a : String) (h : l ≠ []) :
    ∃ e0, l.getLast? = some e0 ∧
      (setLastFollowupAnswer l a).getLast? =
        some { e0 with followup_answer := some a } := by
  induction l with
  | nil => exact absurd rfl h
  | cons x xs ih =>
    cases xs with
    | nil => exact ⟨x, rfl, rfl⟩
    | cons y ys =>
      obtain ⟨e0, h1, h2⟩ := ih (by simp)
      refine ⟨e0, ?_, ?_⟩
      · rw [List.getLast?_cons_cons]
        exact h1
      · show (x :: setLastFollowupAnswer (y :: ys) a).getLast? = _
        have hne : setLastFollowupAnswer (y :: ys) a ≠ [] := by
          cases ys <;> simp [setLastFollowupAnswer]
        obtain ⟨z, zs, hzzs⟩ := List.exists_cons_of_ne_nil hne
        rw [hzzs, List.getLast?_cons_cons, ← hzzs]
        exact h2

theorem pairOverlap_nonneg (a b : Finset String) : 0 ≤ pairOverlap a b := by
  unfold pairOverlap
  positivity

theorem pairOverlap_le_one (a b : Finset String) : pairOverlap a b ≤ 1 := by
  unfold pairOverlap
  rcases Nat.eq_zero_or_pos (a ∪ b).card with h | h
  · rw [h]
    simp
  · rw [div_le_one (by exact_mod_cast h)]
    exact_mod_cast Finset.card_le_card Finset.inter_subset_union

theorem mem_consecutiveOverlaps (l : List (Finset String)) (x : Rat)
    (hx : x ∈ consecutiveOverlaps l) : 0 ≤ x ∧ x ≤ 1 := by
  induction l with
  | nil => simp [consecutiveOverlaps] at hx
  | cons a t ih =>
    cases t with
    | nil => simp [consecutiveOverlaps] at hx
    | cons b r =>
      simp only [consecutiveOverlaps, List.mem_cons] at hx
      rcases hx with rfl | hx
      · exact ⟨pairOverlap_nonneg a b, pairOverlap_le_one a b⟩
      · exact ih hx

theorem consecutiveOverlaps_length (l : List (Finset String)) :
    (consecutiveOverlaps l).length = l.length - 1 := by
  induction l with
  | nil => rfl
  | cons a t ih =>
    cases t with
    | nil => rfl
    | cons b r =>
      simp only [consecutiveOverlaps, List.length_cons] at ih ⊢
      omega

theorem c1s4_reachable : Reachable c1s4 := by
  have h1 : Reachable c1s1 := Reachable.step Reachable.init (Step.start initState 0 rfl)
  have h2 : Reachable c1s2 := Reachable.step h1
    (Step.answer c1s1 "q1" "Formulas" "a1" 1 (evScore 2) 10 1 (Or.inl rfl) rfl
      (by constructor <;> decide))
  have h3 : Reachable c1s3 := Reachable.step h2
    (Step.answer c1s2 "q2" "Data Cleaning" "a2" 2 (evScore 2) 10 1
      (by with_unfolding_all decide) (by with_unfolding_all decide)
      (by constructor <;> decide))
  exact Reachable.step h3
    (Step.answer c1s3 "q3" "Pivot Tables" "a3" 3 (evScore 2) 10 1
      (by with_unfolding_all decide) (by with_unfolding_all decide)
      (by constructor <;> decide))

theorem c1s5_reachable : Reachable c1s5 :=
  Reachable.step c1s4_reachable
    (Step.answer c1s4 "q4" "Reporting" "a4" 4 (evScoreFu 4) 10 0
      (by with_unfolding_all decide) (by with_unfolding_all decide)
      (by constructor <;> decide))

theorem c1s8_reachable : Reachable c1s8 := by
  have h6 : Reachable c1s6 := Reachable.step c1s5_reachable
    (Step.followup c1s5 "fu-answer" (by with_unfolding_all decide))
  have h7 : Reachable c1s7 := Reachable.step h6
    (Step.answer c1s6 "q4" "Reporting" "a5" 4 (evScore 5) 10 1
      (by with_unfolding_all decide) (by with_unfolding_all decide)
      (by constructor <;> decide))
  exact Reachable.step h7
    (Step.answer c1s7 "q5" "Formulas" "a6" 5 (evScore 1) 10 1
      (by with_unfolding_all decide) (by with_unfolding_all decide)
      (by constructor <;> decide))

theorem c2s3_reachable : Reachable c2s3 := by
  have h1 : Reachable c2s1 := Reachable.step Reachable.init (Step.start initState 0 rfl)
  have h2 : Reachable c2s2 := Reachable.step h1
    (Step.answer c2s1 "q1" "Formulas" "a1" 1 (evScore 2) 10 1 (Or.inl rfl) rfl
      (by constructor <;> decide))
  exact Reachable.step h2
    (Step.answer c2s2 "q2" "Data Cleaning" "a2" 2 (evScore 3) 10 1
      (by with_unfolding_all decide) (by with_unfolding_all decide)
      (by constructor <;> decide))

theorem c2s3_step_c2s4 : Step c2s3 c2s4 :=
  Step.answer c2s3 "q3" "Pivot Tables" "a3" 3 (evScore 2) 10 1
    (by with_unfolding_all decide) (by with_unfolding_all decide)
    (by constructor <;> decide)

/-! ## Claim theorems -/

/-- Claim C1, counterexample: the stated upper bound fails.  A reachable
session (three answers scoring 2, a fourth scoring 4 whose follow-up
gate fires so the progression decision is skipped, the follow-up answer,
then answers scoring 5 and 1) reaches phase done with 6 transcript
entries, exceeding MAX_QUESTIONS = 5: the MAX_QUESTIONS ceiling is only
checked in the advanced-phase branch of the progression decision. -/
theorem c1_counterexample :
    Reachable c1s8 ∧ c1s8.phase = Phase.done ∧
    MAX_QUESTIONS < c1s8.transcript.length :=
  ⟨c1s8_reachable, by with_unfolding_all decide, by with_unfolding_all decide⟩

/-- Claim C1, amended: for every reachable session, once phase = done the
transcript length is at least MIN_QUESTIONS and at most
MAX_QUESTIONS + 1.  The one-question overshoot happens when the single
follow-up defers a progression decision that would have ended the
session; the claimed bound MAX_QUESTIONS is violated (see the
counterexample), but MAX_QUESTIONS + 1 is an invariant. -/
theorem c1_termination_bounds (s : SessionState) (h : Reachable s)
    (hdone : s.phase = Phase.done) :
    MIN_QUESTIONS ≤ s.transcript.length ∧
    s.transcript.length ≤ MAX_QUESTIONS + 1 := by
  obtain ⟨-, -, -, hphase⟩ := reachable_sessionInv h
  rw [hdone] at hphase
  simp only [phaseInv] at hphase
  simp only [MIN_QUESTIONS, MAX_QUESTIONS]
  omega

/-- Witness for the amended C1 bound at the concrete trace end state. -/
theorem c1_termination_bounds_witness :
    MIN_QUESTIONS ≤ c1s8.transcript.length ∧
    c1s8.transcript.length ≤ MAX_QUESTIONS + 1 :=
  c1_termination_bounds c1s8 c1s8_reachable (by with_unfolding_all decide)

/-- Claim C2, counterexample: a reachable session (answers scoring
2, 3, 2) transitions directly from basic to done, skipping both
intermediate and advanced, contradicting the claim that only `advanced`
may be skipped on the way to done. -/
theorem c2_counterexample :
    Reachable c2s3 ∧ c2s3.phase = Phase.basic ∧ Step c2s3 c2s4 ∧
    c2s4.phase = Phase.done :=
  ⟨c2s3_reachable, by with_unfolding_all decide, c2s3_step_c2s4,
    by with_unfolding_all decide⟩

/-- Claim C2, amended: every controller step moves the phase forward (or
keeps it) in the order idle, basic, intermediate, advanced, done - no
transition ever moves to an earlier phase and no phase is revisited -
but skipping is not limited to `advanced`: the weak-candidate exit moves
basic directly to done. -/
theorem c2_phase_monotone (s s' : SessionState) (h : Step s s') :
    phaseIdx s.phase ≤ phaseIdx s'.phase := by
  cases h with
  | start now hidle =>
      rw [hidle]
      show phaseIdx Phase.idle ≤ phaseIdx Phase.basic
      decide
  | answer question skill ans qid ev elapsed draw hp hf hev =>
      unfold submitAnswer
      split_ifs with hfire
      · rw [fireFollowup_phase, appendAnswer_phase]
      · calc phaseIdx s.phase
            = phaseIdx (clearFollowup
                (appendAnswer s question skill ans qid ev elapsed)).phase := by
              rw [clearFollowup_phase, appendAnswer_phase]
          _ ≤ _ := runProgression_phase_mono _
  | followup ans hf =>
      exact le_refl _

/-- Witness for the amended C2 monotonicity at the start transition. -/
theorem c2_phase_monotone_witness :
    phaseIdx initState.phase ≤ phaseIdx (startInterview initState 0).phase :=
  c2_phase_monotone initState (startInterview initState 0) (Step.start initState 0 rfl)

/-- Claim C3: after a main answer is recorded, the follow-up becomes
pending iff 2 <= score <= 4, the budget is positive, the draw is below
the fixed probability 35/100 and the follow-up prompt is non-empty; and
when it fires, the pending text is the prompt, the budget is decremented
by one and the phase is not advanced (while the answer is still
recorded). -/
theorem c3_followup_decision (s : SessionState) (question skill ans : String)
    (qid : Nat) (ev : Evaluation) (elapsed draw : Rat) :
    ((submitAnswer s question skill ans qid ev elapsed draw).followup_pending = true ↔
      (2 ≤ ev.score ∧ ev.score ≤ 4 ∧ 0 < s.followup_limit ∧
        draw < 35 / 100 ∧ ev.followup ≠ "")) ∧
    ((2 ≤ ev.score ∧ ev.score ≤ 4 ∧ 0 < s.followup_limit ∧
        draw < 35 / 100 ∧ ev.followup ≠ "") →
      (submitAnswer s question skill ans qid ev elapsed draw).followup_text =
        ev.followup ∧
      (submitAnswer s question skill ans qid ev elapsed draw).followup_limit =
        s.followup_limit - 1 ∧
      (submitAnswer s question skill ans qid ev elapsed draw).phase = s.phase ∧
      (submitAnswer s question skill ans qid ev elapsed draw).transcript.length =
        s.transcript.length + 1) := by
  unfold submitAnswer FOLLOWUP_PROB
  split_ifs with hfire
  · obtain ⟨e2, e4, el0, ed, ef⟩ := hfire
    refine ⟨⟨fun _ => ⟨e2, e4, el0, ed, ef⟩, fun _ => rfl⟩, fun _ => ⟨?_, rfl, rfl, ?_⟩⟩
    · rw [fireFollowup_followup_text]
      unfold pyOr
      rw [if_neg ef]
    · rw [fireFollowup_transcript, appendAnswer_transcript, length_append_singleton]
  · refine ⟨⟨fun hp => ?_, fun hc => absurd hc hfire⟩, fun hc => absurd hc hfire⟩
    rw [runProgression_followup_pending, clearFollowup_followup_pending] at hp
    exact Bool.noConfusion hp

/-- Witness for C3 at the concrete firing submission of the trace. -/
theorem c3_followup_decision_witness :
    (submitAnswer c1s4 "q4" "Reporting" "a4" 4 (evScoreFu 4) 10 0).followup_text =
      (evScoreFu 4).followup ∧
    (submitAnswer c1s4 "q4" "Reporting" "a4" 4 (evScoreFu 4) 10 0).followup_limit =
      c1s4.followup_limit - 1 ∧
    (submitAnswer c1s4 "q4" "Reporting" "a4" 4 (evScoreFu 4) 10 0).phase = c1s4.phase ∧
    (submitAnswer c1s4 "q4" "Reporting" "a4" 4 (evScoreFu 4) 10 0).transcript.length =
      c1s4.transcript.length + 1 :=
  (c3_followup_decision c1s4 "q4" "Reporting" "a4" 4 (evScoreFu 4) 10 0).2
    (by with_unfolding_all decide)

/-- Claim C4, counterexample: the fallback evaluation built on Evaluator
failure carries a non-empty placeholder feedback message, not the empty
feedback the claim states. -/
theorem c4_counterexample :
    (evaluate_with_llm (Except.error "timeout")).feedback ≠ "" := by
  with_unfolding_all decide

/-- Claim C4, amended: on any Evaluator failure, `evaluate_with_llm`
returns (rather than propagates an error) the fixed neutral fallback
with score 3, every breakdown field 3, empty follow-up prompt, neutral
behavioural ratings 3, and a non-empty placeholder feedback that embeds
the error message (the claimed empty feedback is the one discrepancy). -/
theorem c4_evaluator_fallback (e : String) :
    evaluate_with_llm (Except.error e) = fallbackEvaluation e ∧
    (fallbackEvaluation e).score = 3 ∧
    (fallbackEvaluation e).breakdown_correctness = 3 ∧
    (fallbackEvaluation e).breakdown_efficiency = 3 ∧
    (fallbackEvaluation e).breakdown_clarity = 3 ∧
    (fallbackEvaluation e).breakdown_completeness = 3 ∧
    (fallbackEvaluation e).followup = "" ∧
    (fallbackEvaluation e).clarity = 3 ∧
    (fallbackEvaluation e).confidence = 3 ∧
    (fallbackEvaluation e).problem_solving = 3 ∧
    (fallbackEvaluation e).feedback =
      "Neutral placeholder feedback due to error: " ++ e :=
  ⟨rfl, rfl, rfl, rfl, rfl, rfl, rfl, rfl, rfl, rfl, rfl⟩

/-- Claim C5, counterexample: at a reachable state with a pending
follow-up, submitting the follow-up leaves the phase at basic although
the progression decision, had it been run as the claim states, would
have moved the session to done: the Submit Follow-up handler does not
run the progression decision. -/
theorem c5_counterexample :
    Reachable c1s5 ∧ c1s5.followup_pending = true ∧
    (submitFollowup c1s5 "ok").phase = Phase.basic ∧
    (runProgression (submitFollowup c1s5 "ok")).phase = Phase.done :=
  ⟨c1s5_reachable, by with_unfolding_all decide, by with_unfolding_all decide,
    by with_unfolding_all decide⟩

/-- Claim C5, amended: submitting a follow-up answer attaches the answer
text as `followup_answer` on the last transcript entry and clears the
pending follow-up state, and changes nothing else - in particular the
phase is unchanged (no progression decision runs; it next runs only
after the following main answer) and no second follow-up is triggered
(the pending flag is false and the budget untouched). -/
theorem c5_submit_followup_effect (s : SessionState) (ans : String)
    (h : s.transcript ≠ []) :
    (submitFollowup s ans).followup_pending = false ∧
    (submitFollowup s ans).followup_text = "" ∧
    (submitFollowup s ans).phase = s.phase ∧
    (submitFollowup s ans).followup_limit = s.followup_limit ∧
    (submitFollowup s ans).followups_asked = s.followups_asked ∧
    (submitFollowup s ans).transcript.length = s.transcript.length ∧
    (∃ e0, s.transcript.getLast? = some e0 ∧
      (submitFollowup s ans).transcript.getLast? =
        some { e0 with followup_answer := some ans }) := by
  refine ⟨rfl, rfl, rfl, rfl, rfl, ?_, ?_⟩
  · exact length_setLastFollowupAnswer s.transcript ans
  · exact setLast_spec s.transcript ans h

/-- Witness for the amended C5 at a concrete session. -/
theorem c5_submit_followup_effect_witness :
    (submitFollowup finishedSession "w").followup_pending = false ∧
    (submitFollowup finishedSession "w").followup_text = "" ∧
    (submitFollowup finishedSession "w").phase = finishedSession.phase ∧
    (submitFollowup finishedSession "w").followup_limit =
      finishedSession.followup_limit ∧
    (submitFollowup finishedSession "w").followups_asked =
      finishedSession.followups_asked ∧
    (submitFollowup finishedSession "w").transcript.length =
      finishedSession.transcript.length ∧
    (∃ e0, finishedSession.transcript.getLast? = some e0 ∧
      (submitFollowup finishedSession "w").transcript.getLast? =
        some { e0 with followup_answer := some "w" }) :=
  c5_submit_followup_effect finishedSession "w" (by with_unfolding_all decide)

/-- Claim C6: in every reachable session the follow-up budget is never
negative, the budget plus the number of follow-ups actually asked equals
the initial budget 1 (so the budget is decremented exactly on each
follow-up asked and never replenished, and a follow-up can only be
offered while the budget is positive), hence at most one follow-up is
ever asked. -/
theorem c6_followup_budget (s : SessionState) (h : Reachable s) :
    0 ≤ s.followup_limit ∧
    s.followup_limit + (s.followups_asked : Int) = 1 ∧
    s.followups_asked ≤ 1 := by
  obtain ⟨-, hlim, hsum, -⟩ := reachable_sessionInv h
  exact ⟨hlim, hsum, by omega⟩

/-- Witness for C6 at the initial state. -/
theorem c6_followup_budget_witness :
    0 ≤ initState.followup_limit ∧
    initState.followup_limit + (initState.followups_asked : Int) = 1 ∧
    initState.followups_asked ≤ 1 :=
  c6_followup_budget initState Reachable.init

/-- Claim C7, counterexample: the registered skill area Reporting is
covered by neither the inline fallback pool of
`select_next_question_api` nor the static FALLBACK_QUESTIONS pool, so
the fallback pool does not cover every registered skill area. -/
theorem c7_counterexample :
    "Reporting" ∈ SKILL_AREAS ∧
    "Reporting" ∉ fallback_pool.map Question.skill_area ∧
    "Reporting" ∉ FALLBACK_QUESTIONS.map Question.skill_area := by
  with_unfolding_all decide

/-- Claim C7, amended: on QuestionSource failure the operation returns a
member of the static fallback pool, whose skill areas are Formulas,
Formulas, Data Cleaning, Pivot Tables and Productivity/Protection (four
of the five registered areas - Reporting is missing), and whenever some
pool question's skill area is outside the avoidance list the returned
question's skill area is outside it (the first such pool entry is taken,
deterministically; only when every pool area was asked does the
`random.choice` index matter). -/
theorem c7_fallback_pool (avoid : List String) (choice : Fin 5) :
    select_fallback_question avoid choice ∈ fallback_pool ∧
    fallback_pool.map Question.skill_area =
      ["Formulas", "Formulas", "Data Cleaning", "Pivot Tables",
        "Productivity/Protection"] ∧
    ((∃ f ∈ fallback_pool, f.skill_area ∉ avoid) →
      (select_fallback_question avoid choice).skill_area ∉ avoid) := by
  unfold select_fallback_question
  cases hfind : fallback_pool.find? (fun f => ! avoid.contains f.skill_area) with
  | none =>
      refine ⟨List.get_mem fallback_pool choice.val choice.isLt, by with_unfolding_all decide, ?_⟩
      rintro ⟨f, hf, hfa⟩
      have hnone := List.find?_eq_none.mp hfind f hf
      simp at hnone
      exact absurd hnone hfa
  | some f =>
      refine ⟨List.mem_of_find?_eq_some hfind, by with_unfolding_all decide, fun _ => ?_⟩
      have hpf := List.find?_some hfind
      simp at hpf
      exact hpf

/-- Witness for the amended C7: with only Formulas asked, the fallback
question avoids Formulas. -/
theorem c7_fallback_pool_witness :
    (select_fallback_question ["Formulas"] ⟨0, by norm_num⟩).skill_area ∉
      ["Formulas"] :=
  (c7_fallback_pool ["Formulas"] ⟨0, by norm_num⟩).2.2 (by with_unfolding_all decide)

/-- Claim C8, counterexample: the scorecard is not a pure function of the
finished session alone - the code reads the wall clock for the total
session duration, so computing the scorecard for the same finished
session at two different times yields different output. -/
theorem c8_counterexample :
    finishedSession.interview_complete = true ∧
    aggregate finishedSession 200 ≠ aggregate finishedSession 300 := by
  constructor
  · rfl
  · intro h
    have := congrArg Scorecard.total_duration h
    with_unfolding_all revert this
    with_unfolding_all decide

/-- Claim C8, amended: for a finished session every scorecard component
except `total_duration` is a pure function of the session (identical
across recomputations, no randomness, no external calls);
`total_duration` additionally depends on the wall-clock reading. -/
theorem c8_aggregate_deterministic (s : SessionState) (t1 t2 : Rat)
    (h : s.interview_complete = true) :
    (aggregate s t1).overall = (aggregate s t2).overall ∧
    (aggregate s t1).skill_map = (aggregate s t2).skill_map ∧
    (aggregate s t1).strengths = (aggregate s t2).strengths ∧
    (aggregate s t1).weaknesses = (aggregate s t2).weaknesses ∧
    (aggregate s t1).avg_clarity = (aggregate s t2).avg_clarity ∧
    (aggregate s t1).avg_confidence = (aggregate s t2).avg_confidence ∧
    (aggregate s t1).avg_problem_solving = (aggregate s t2).avg_problem_solving ∧
    (aggregate s t1).avg_time = (aggregate s t2).avg_time := by
  unfold aggregate
  exact ⟨rfl, rfl, rfl, rfl, rfl, rfl, rfl, rfl⟩

/-- Witness for the amended C8 at a concrete finished session. -/
theorem c8_aggregate_deterministic_witness :
    (aggregate finishedSession 100).overall = (aggregate finishedSession 200).overall ∧
    (aggregate finishedSession 100).skill_map =
      (aggregate finishedSession 200).skill_map ∧
    (aggregate finishedSession 100).strengths =
      (aggregate finishedSession 200).strengths ∧
    (aggregate finishedSession 100).weaknesses =
      (aggregate finishedSession 200).weaknesses ∧
    (aggregate finishedSession 100).avg_clarity =
      (aggregate finishedSession 200).avg_clarity ∧
    (aggregate finishedSession 100).avg_confidence =
      (aggregate finishedSession 200).avg_confidence ∧
    (aggregate finishedSession 100).avg_problem_solving =
      (aggregate finishedSession 200).avg_problem_solving ∧
    (aggregate finishedSession 100).avg_time =
      (aggregate finishedSession 200).avg_time :=
  c8_aggregate_deterministic finishedSession 100 200 rfl

/-- Claim C9: the consistency metric always lies in the closed interval
0..1 and equals exactly 1 for fewer than two answers (spec-modelled:
no compute_consistency exists under src/). -/
theorem c9_consistency_bounds (answers : List String) :
    0 ≤ compute_consistency answers ∧ compute_consistency answers ≤ 1 ∧
    (answers.length < 2 → compute_consistency answers = 1) := by
  unfold compute_consistency
  split_ifs with h
  · exact ⟨by norm_num, by norm_num, fun _ => rfl⟩
  · have hlen : 2 ≤ answers.length := by omega
    have hk : (consecutiveOverlaps (answers.map answer_tokens)).length =
        answers.length - 1 := by
      rw [consecutiveOverlaps_length, List.length_map]
    have h0 : 0 ≤ (consecutiveOverlaps (answers.map answer_tokens)).sum :=
      List.sum_nonneg (fun x hx => (mem_consecutiveOverlaps _ x hx).1)
    have h1 : (consecutiveOverlaps (answers.map answer_tokens)).sum ≤
        ((answers.length - 1 : Nat) : Rat) := by
      calc (consecutiveOverlaps (answers.map answer_tokens)).sum ≤
          (consecutiveOverlaps (answers.map answer_tokens)).length • (1 : Rat) :=
            List.sum_le_card_nsmul _ 1 (fun x hx => (mem_consecutiveOverlaps _ x hx).2)
        _ = ((consecutiveOverlaps (answers.map answer_tokens)).length : Rat) := by
            simp
        _ = ((answers.length - 1 : Nat) : Rat) := by rw [hk]
    have hpos : (0 : Rat) < ((answers.length - 1 : Nat) : Rat) := by
      have hp : 0 < answers.length - 1 := by omega
      exact_mod_cast hp
    exact ⟨div_nonneg h0 (le_of_lt hpos), ⟨(div_le_one hpos).mpr h1,
      fun hlt => absurd hlt h⟩⟩

/-- Witness for C9 at the empty transcript. -/
theorem c9_consistency_bounds_witness :
    0 ≤ compute_consistency [] ∧ compute_consistency [] ≤ 1 ∧
    compute_consistency [] = 1 :=
  ⟨(c9_consistency_bounds []).1, (c9_consistency_bounds []).2.1,
    (c9_consistency_bounds []).2.2 (by norm_num)⟩

/-- Claim C10: the difficulty requested from the QuestionSource is the
step function of the running average score implemented at the top of
`select_next_question_api` - advanced iff the average exists and is at
least 4.5, intermediate iff it exists and lies in 3..4.5 (right-open),
and basic otherwise (including the no-answers case). -/
theorem c10_difficulty_step (avg : Option Rat) :
    (select_difficulty avg = "advanced" ↔ ∃ a, avg = some a ∧ 9 / 2 ≤ a) ∧
    (select_difficulty avg = "intermediate" ↔
      ∃ a, avg = some a ∧ 3 ≤ a ∧ a < 9 / 2) ∧
    (select_difficulty avg = "basic" ↔
      (avg = none ∨ ∃ a, avg = some a ∧ a < 3)) := by
  cases avg with
  | none =>
      refine ⟨?_, ?_, ?_⟩ <;> simp [select_difficulty]
  | some a =>
      simp only [select_difficulty]
      split_ifs with h1 h2
      · refine ⟨⟨fun _ => ⟨a, rfl, h1⟩, fun _ => rfl⟩, ⟨?_, ?_⟩, ⟨?_, ?_⟩⟩
        · intro h
          exact absurd h (by decide)
        · rintro ⟨b, hb, h3, h92⟩
          have hab := Option.some_inj.mp hb
          subst hab
          exact absurd h1 (not_le.mpr h92)
        · intro h
          exact absurd h (by decide)
        · rintro (hn | ⟨b, hb, h3⟩)
          · exact hn.elim
          · have hab := Option.some_inj.mp hb
            subst hab
            linarith
      · refine ⟨⟨?_, ?_⟩, ⟨fun _ => ⟨a, rfl, h2, not_le.mp h1⟩, fun _ => rfl⟩, ⟨?_, ?_⟩⟩
        · intro h
          exact absurd h (by decide)
        · rintro ⟨b, hb, h92⟩
          have hab := Option.some_inj.mp hb
          subst hab
          exact absurd h92 h1
        · intro h
          exact absurd h (by decide)
        · rintro (hn | ⟨b, hb, h3⟩)
          · exact hn.elim
          · have hab := Option.some_inj.mp hb
            subst hab
            linarith
      · refine ⟨⟨?_, ?_⟩, ⟨?_, ?_⟩, ⟨fun _ => Or.inr ⟨a, rfl, not_le.mp h2⟩, fun _ => rfl⟩⟩
        · intro h
          exact absurd h (by decide)
        · rintro ⟨b, hb, h92⟩
          have hab := Option.some_inj.mp hb
          subst hab
          exact absurd h92 h1
        · intro h
          exact absurd h (by decide)
        · rintro ⟨b, hb, h3, h92⟩
          have hab := Option.some_inj.mp hb
          subst hab
          exact absurd h3 h2

/-- Witness for C10: with no answers yet, the requested difficulty is
basic. -/
theorem c10_difficulty_step_witness : select_difficulty none = "basic" :=
  ((c10_difficulty_step none).2.2).mpr (Or.inl rfl)
